import Mathlib

/-!
Verification development for the pychemqt heat-exchanger chart utilities
(equipment/UI_heatExchanger.py) and the periodic-table data helper
(lib/elemental.py), together with a model of the effectiveness core
(Heat_ExchangerDesign) that the charts call.
-/

open Real

/-! Chart data embedded from equipment/UI_heatExchanger.py. -/

/-- Flow-arrangement tags offered by the Efectividad chart
(Efectividad.flujo, second tuple components, lines 198-208). -/
def efectividadFlujoTags : List String :=
  ["CF", "PF", "CrFunMix", "CrFSMix", "CrFMix", "1-2TEMAE"]

/-- Mixed sub-selector values of the Efectividad chart combo box
(Efectividad.mezclado, line 210). -/
def efectividadMezclado : List String := ["Cmin", "Cmax"]

/-- Mixed sub-selector values of the TemperatureEfectividad chart combo
box (TemperatureEfectividad.mezclado, line 320). -/
def temperatureEfectividadMezclado : List String := ["1", "2"]

/-- Keyword-argument construction shared by the chart plot methods: the
current combo-box text is passed as the mixed keyword exactly when the
selected arrangement tag is CrFSMix (lines 268-270, 378-380, 477-479). -/
def plotMixedArg (flujo current : String) : Option String :=
  if flujo = "CrFSMix" then some current else none

/-- Capacity-ratio sweep of the effectiveness chart (line 272). -/
def efectividadSweepC : List ℝ := [0, 0.2, 0.4, 0.6, 0.8, 1]

/-- R sweep of the temperature-effectiveness chart (line 382). -/
def teSweepR : List ℝ :=
  [0.2, 0.3, 0.4, 0.5, 0.6, 0.7, 0.8, 0.9, 1, 1.2, 1.4, 1.6, 1.8, 2,
   2.5, 3, 4, 6, 8, 10, 15]

/-- Abscissa grid of the effectiveness chart, arange(0, 6.1, 0.1)
(line 274): the i-th point is 0.1 * i. -/
def efNTUGrid (i : ℕ) : ℝ := 0.1 * i

/-- Ordinates plotted by Efectividad.plot for one capacity-ratio curve: a
literal 0 followed by values of the core function on NTU[1:] (lines
276-278).  The core effectiveness function is a parameter, so the facts
proved below hold whatever it computes. -/
def efPlotOrdinate (core : ℝ → ℝ → ℝ) (ci : ℝ) (i : ℕ) : ℝ :=
  if i = 0 then 0 else core (efNTUGrid i) ci

/-- Abscissa grid of the temperature-effectiveness chart,
logspace(-1.5, 1, 100) (line 384): 100 log-spaced points, the i-th being
10 raised to (-1.5 + 2.5 * i / 99). -/
noncomputable def teNTUGrid (i : ℕ) : ℝ :=
  (10 : ℝ) ^ ((-1.5 : ℝ) + 2.5 * i / 99)

/-- Ordinates plotted by TemperatureEfectividad.plot for one R curve: a
literal 0 followed by values of the core function on NTU[1:] (line 386).
The core temperature-effectiveness function is a parameter, so the facts
proved below hold whatever it computes. -/
noncomputable def tePlotOrdinate (core : ℝ → ℝ → ℝ) (R : ℝ) (i : ℕ) : ℝ :=
  if i = 0 then 0 else core (teNTUGrid i) R

/-! Model of the effectiveness core called by the charts. -/

/-- Flow arrangements recognized by the effectiveness core, one per tag
of the Efectividad chart. -/
inductive Arrangement where
  | CF | PF | CrFunMix | CrFSMix | CrFMix | TEMAE12
deriving DecidableEq

/-- Sub-selector telling which stream is mixed in the asymmetric
crossflow arrangement. -/
inductive Mixed where
  | Cmin | Cmax
deriving DecidableEq

/-- Modelled from the spec: the effectiveness core
Heat_ExchangerDesign.efectividad lives in equipment/heatExchanger.py,
which is outside the excerpt; following spec sections 4.1, 8 and 9 it is
modelled by the standard closed-form effectiveness relations of
heat-exchanger theory for the six chart arrangements, with degenerate
inputs (Cr = 1 counterflow, Cr = 0 crossflow, NTU = 0 both-mixed
crossflow) resolved to their documented limiting values. -/
noncomputable def effFormula (N C : ℝ) : Arrangement → Mixed → ℝ
  | .CF, _ =>
      if C = 1 then N / (1 + N)
      else (1 - exp (-N * (1 - C))) / (1 - C * exp (-N * (1 - C)))
  | .PF, _ => (1 - exp (-N * (1 + C))) / (1 + C)
  | .CrFunMix, _ =>
      if C = 0 then 1 - exp (-N)
      else 1 - exp (N ^ (0.22 : ℝ) / C * (exp (-C * N ^ (0.78 : ℝ)) - 1))
  | .CrFSMix, .Cmin =>
      if C = 0 then 1 - exp (-N)
      else 1 - exp (-(1 - exp (-C * N)) / C)
  | .CrFSMix, .Cmax =>
      if C = 0 then 1 - exp (-N)
      else (1 - exp (-C * (1 - exp (-N)))) / C
  | .CrFMix, _ =>
      if C = 0 then 1 - exp (-N)
      else if N = 0 then 0
      else 1 / (1 / (1 - exp (-N)) + C / (1 - exp (-C * N)) - 1 / N)
  | .TEMAE12, _ =>
      2 * (1 - exp (-N * sqrt (1 + C ^ 2))) /
        ((1 + C) * (1 - exp (-N * sqrt (1 + C ^ 2)))
          + sqrt (1 + C ^ 2) * (1 + exp (-N * sqrt (1 + C ^ 2))))

/-- The standard counterflow closed form quoted verbatim by the spec's
round-trip property (section 8), kept as a separate definition so the
model can be compared against it. -/
noncomputable def counterflowClosedForm (N C : ℝ) : ℝ :=
  (1 - exp (-N * (1 - C))) / (1 - C * exp (-N * (1 - C)))

/-- Modelled from the spec: tag dispatch of the effectiveness core; an
arrangement string that is not one of the recognized tags signals an
invalid-argument condition, modelled as none (spec section 4 failure
semantics). -/
def parseArrangement : String → Option Arrangement
  | "CF" => some .CF
  | "PF" => some .PF
  | "CrFunMix" => some .CrFunMix
  | "CrFSMix" => some .CrFSMix
  | "CrFMix" => some .CrFMix
  | "1-2TEMAE" => some .TEMAE12
  | _ => none

/-- Modelled from the spec: the mixed sub-selector has allowed values
Cmin and Cmax (spec section 4.1). -/
def parseMixed : String → Option Mixed
  | "Cmin" => some .Cmin
  | "Cmax" => some .Cmax
  | _ => none

/-- Modelled from the spec: the full effectiveness entry point over raw
string tags; the mixed keyword is consulted only for the asymmetric
crossflow arrangement. -/
noncomputable def efectividad (N C : ℝ) (flujo : String)
    (mixed : Option String) : Option ℝ :=
  match parseArrangement flujo with
  | none => none
  | some .CrFSMix =>
      match mixed with
      | none => none
      | some s => (parseMixed s).map (effFormula N C .CrFSMix)
  | some a => some (effFormula N C a .Cmin)

/-! Embedding of lib/elemental.py. -/

/-- A raw row fetched from the ELEMENTS table (the SELECT * result). -/
abbrev ElementRow := List String

/-- Object state built by Elemental.init from the fetched row: the id
attribute is int(data[0]) (line 94), and every other attribute is a pure
function of the row alone (lines 95-141), summarized by retaining the
row itself. -/
structure ElementalState where
  id : Int
  row : ElementRow
deriving DecidableEq

/-- Atomic-number clamp at the top of Elemental.init
(lib/elemental.py lines 89-90). -/
def clampElementId (id : Int) : Int := if id > 118 then 118 else id

/-- Elemental.init: clamp the id, fetch the database row for the clamped
id, and build the object state from that row (lines 89-141). -/
def elementalInit (fetch : Int → ElementRow) (id : Int) : ElementalState :=
  let data := fetch (clampElementId id)
  { id := ((data.headD "0").toInt?).getD 0, row := data }

/-! Helper lemmas. -/

lemma exp_le_one_of_nonpos {x : ℝ} (h : x ≤ 0) : exp x ≤ 1 := by
  calc exp x ≤ exp 0 := Real.exp_le_exp.mpr h
  _ = 1 := Real.exp_zero

/-! Claim theorems. -/

/-- C10: for every integer id greater than 118, Elemental(id) produces
exactly the same object state as Elemental(118): the constructor clamps
the atomic number to 118 before querying the database, so the state is
built from the element-118 row. -/
theorem claim_C10 (fetch : Int → ElementRow) (id : Int) (h : id > 118) :
    elementalInit fetch id = elementalInit fetch 118 ∧
      clampElementId id = 118 ∧
      (elementalInit fetch id).row = fetch 118 := by
  have hclamp : clampElementId id = 118 := if_pos h
  have hclamp118 : clampElementId 118 = 118 := by simp [clampElementId]
  refine ⟨?_, hclamp, ?_⟩ <;> simp [elementalInit, hclamp, hclamp118]

/-- Witness for C10: a concrete database with id 200, clamped to 118. -/
theorem claim_C10_witness :
    elementalInit (fun i => [toString i]) 200
        = elementalInit (fun i => [toString i]) 118 ∧
      clampElementId 200 = 118 ∧
      (elementalInit (fun i => [toString i]) 200).row
        = (fun i : Int => [toString i]) 118 :=
  claim_C10 (fun i => [toString i]) 200 (by decide)

/-- C9: in the temperature-effectiveness chart the first plotted
ordinate of every curve is the literal 0 while the core function is
evaluated only on NTU[1:], and the first abscissa is 10^(-1.5), about
0.0316 — whatever the core function would return there. -/
theorem claim_C9 (core : ℝ → ℝ → ℝ) (R : ℝ) (hR : R ∈ teSweepR) :
    tePlotOrdinate core R 0 = 0 ∧
      teNTUGrid 0 = (10 : ℝ) ^ (-(1.5 : ℝ)) ∧
      0.031 < teNTUGrid 0 ∧ teNTUGrid 0 < 0.032 ∧
      ∀ i : ℕ, 1 ≤ i → tePlotOrdinate core R i = core (teNTUGrid i) R := by
  have hexp : teNTUGrid 0 = (10 : ℝ) ^ (-(1.5 : ℝ)) := by
    unfold teNTUGrid; norm_num
  have hsq : teNTUGrid 0 * teNTUGrid 0 = 1 / 1000 := by
    rw [hexp, ← Real.rpow_add (by norm_num : (0:ℝ) < 10)]
    rw [show (-(1.5:ℝ) + -(1.5:ℝ)) = ((-3 : ℤ) : ℝ) by norm_num,
      Real.rpow_intCast]
    norm_num
  have hpos : 0 < teNTUGrid 0 := by
    rw [hexp]; exact Real.rpow_pos_of_pos (by norm_num) _
  refine ⟨rfl, hexp, by nlinarith, by nlinarith, ?_⟩
  intro i hi
  have hne : i ≠ 0 := Nat.one_le_iff_ne_zero.mp hi
  simp [tePlotOrdinate, hne]

/-- Witness for C9 at the first sweep value R = 0.2 and a concrete core. -/
theorem claim_C9_witness :
    tePlotOrdinate (fun x _ => x) 0.2 0 = 0 ∧
      teNTUGrid 0 = (10 : ℝ) ^ (-(1.5 : ℝ)) ∧
      0.031 < teNTUGrid 0 ∧ teNTUGrid 0 < 0.032 ∧
      ∀ i : ℕ, 1 ≤ i →
        tePlotOrdinate (fun x _ => x) 0.2 i
          = (fun (x : ℝ) (_ : ℝ) => x) (teNTUGrid i) 0.2 :=
  claim_C9 (fun x _ => x) 0.2 (by simp [teSweepR])

/-- C6 counterexample: with the CrFSMix arrangement selected and the
first combo-box entry current, the temperature-effectiveness chart
passes the mixed value 1, which is not among the values Cmin, Cmax that
the claim allows. -/
theorem claim_C6_counterexample :
    plotMixedArg "CrFSMix" (temperatureEfectividadMezclado.headD "") = some "1"
      ∧ "1" ∉ efectividadMezclado := by
  constructor
  · decide
  · decide

/-- C6 amended: the mixed keyword is supplied exactly when the
arrangement tag is CrFSMix in both charts; the effectiveness chart's
allowed values are Cmin and Cmax, while the temperature-effectiveness
chart's combo box holds 1 and 2 instead. -/
theorem claim_C6_amended (flujo current : String)
    (h : (plotMixedArg flujo current).isSome = true) :
    flujo = "CrFSMix" ∧ plotMixedArg flujo current = some current ∧
      efectividadMezclado = ["Cmin", "Cmax"] ∧
      temperatureEfectividadMezclado = ["1", "2"] := by
  by_cases hf : flujo = "CrFSMix"
  · exact ⟨hf, by simp [plotMixedArg, hf], rfl, rfl⟩
  · simp [plotMixedArg, hf] at h

/-- Witness for C6 at the arrangement CrFSMix with current text 1. -/
theorem claim_C6_witness :
    "CrFSMix" = "CrFSMix" ∧ plotMixedArg "CrFSMix" "1" = some "1" ∧
      efectividadMezclado = ["Cmin", "Cmax"] ∧
      temperatureEfectividadMezclado = ["1", "2"] :=
  claim_C6_amended "CrFSMix" "1" (by decide)

/-- C1: at NTU = 0 the effectiveness is 0 for every arrangement, every
mixed selector and every capacity ratio in the unit interval; moreover
the effectiveness chart prepends the literal 0 as the first plotted
ordinate and never calls the core at NTU = 0, whatever the core
computes. -/
theorem claim_C1 (a : Arrangement) (m : Mixed) (C : ℝ)
    (h0 : 0 ≤ C) (h1 : C ≤ 1) :
    effFormula 0 C a m = 0 ∧
      ∀ (core : ℝ → ℝ → ℝ) (ci : ℝ), efPlotOrdinate core ci 0 = 0 := by
  refine ⟨?_, fun core ci => rfl⟩
  cases a <;> cases m <;>
    simp only [effFormula] <;>
    (try split_ifs) <;>
    norm_num [Real.exp_zero, Real.zero_rpow]

/-- Witness for C1 at counterflow with capacity ratio one half. -/
theorem claim_C1_witness :
    effFormula 0 (1/2) .CF .Cmin = 0 ∧
      ∀ (core : ℝ → ℝ → ℝ) (ci : ℝ), efPlotOrdinate core ci 0 = 0 :=
  claim_C1 .CF .Cmin (1/2) (by norm_num) (by norm_num)

/-- C7: with zero capacity ratio, counterflow and parallelflow agree,
and both equal 1 - exp(-NTU). -/
theorem claim_C7 (N : ℝ) (hN : 0 ≤ N) (m : Mixed) :
    effFormula N 0 .CF m = effFormula N 0 .PF m ∧
      effFormula N 0 .PF m = 1 - exp (-N) := by
  constructor <;> simp [effFormula]

/-- Witness for C7 at NTU = 1. -/
theorem claim_C7_witness :
    effFormula 1 0 .CF .Cmin = effFormula 1 0 .PF .Cmin ∧
      effFormula 1 0 .PF .Cmin = 1 - exp (-1) :=
  claim_C7 1 (by norm_num) .Cmin

/-- C2: the effectiveness entry point returns a value for every
recognized arrangement tag, every mixed selector and all real NTU and
Cr (degenerate denominators never fault); at Cr = 1 the counterflow
formula with its (1 - Cr) denominator returns the limiting value
NTU/(1 + NTU); and the plotting sweep includes Cr = 1.0. -/
theorem claim_C2 (N C : ℝ) (hN : 0 ≤ N) (hC0 : 0 ≤ C) (hC1 : C ≤ 1) :
    (∀ flujo ∈ efectividadFlujoTags, ∀ mixed ∈ efectividadMezclado,
        (efectividad N C flujo (some mixed)).isSome = true) ∧
      effFormula N 1 .CF .Cmin = N / (1 + N) ∧
      (1 : ℝ) ∈ efectividadSweepC := by
  refine ⟨?_, by simp [effFormula], by simp [efectividadSweepC]⟩
  intro flujo hf mixed hm
  fin_cases hf <;> fin_cases hm <;>
    simp [efectividad, parseArrangement, parseMixed]

/-- Witness for C2 at NTU = 1, Cr = 1. -/
theorem claim_C2_witness :
    (∀ flujo ∈ efectividadFlujoTags, ∀ mixed ∈ efectividadMezclado,
        (efectividad 1 1 flujo (some mixed)).isSome = true) ∧
      effFormula 1 1 .CF .Cmin = 1 / (1 + 1) ∧
      (1 : ℝ) ∈ efectividadSweepC :=
  claim_C2 1 1 (by norm_num) (by norm_num) (by norm_num)

/-! Numeric bounds on the exponential used by the counterflow claims. -/

lemma exp_half_mul_self : exp (1/2 : ℝ) * exp (1/2 : ℝ) = exp 1 := by
  rw [← Real.exp_add]; norm_num

lemma exp_half_gt : (1.6487 : ℝ) < exp (1/2 : ℝ) := by
  nlinarith [Real.exp_one_gt_d9, exp_half_mul_self, Real.exp_pos (1/2 : ℝ)]

lemma exp_half_lt : exp (1/2 : ℝ) < 1.64873 := by
  nlinarith [Real.exp_one_lt_d9, exp_half_mul_self, Real.exp_pos (1/2 : ℝ)]

lemma exp_neg_half_mul : exp (-(1/2) : ℝ) * exp (1/2 : ℝ) = 1 := by
  rw [← Real.exp_add]; norm_num

lemma exp_neg_half_lt : exp (-(1/2) : ℝ) < 0.6066 := by
  nlinarith [exp_half_gt, exp_neg_half_mul, Real.exp_pos (-(1/2) : ℝ),
    Real.exp_pos (1/2 : ℝ)]

lemma exp_neg_half_gt : (0.6065 : ℝ) < exp (-(1/2) : ℝ) := by
  nlinarith [exp_half_lt, exp_neg_half_mul, Real.exp_pos (-(1/2) : ℝ),
    Real.exp_pos (1/2 : ℝ)]

lemma effCF_half_val : effFormula 1 (1/2) .CF .Cmin
    = (1 - exp (-(1/2) : ℝ)) / (1 - 1/2 * exp (-(1/2) : ℝ)) := by
  have h12 : ((1:ℝ)/2) ≠ 1 := by norm_num
  simp only [effFormula, if_neg h12]
  norm_num

/-- C5 counterexample: at NTU = 1, Cr = 0.5 the counterflow value of the
model — the exact closed form the claim itself prescribes — is about
0.5647, more than 0.02 away from the claimed reference value 0.5403, so
the two halves of the claim cannot both hold. -/
theorem claim_C5_counterexample :
    ¬ |effFormula 1 (1/2) .CF .Cmin - 0.5403| < 0.02 := by
  have hx1 := exp_neg_half_lt
  have hx0 := exp_neg_half_gt
  have hden : (0:ℝ) < 1 - 1/2 * exp (-(1/2) : ℝ) := by nlinarith
  have hlow : (0.5646 : ℝ) < effFormula 1 (1/2) .CF .Cmin := by
    rw [effCF_half_val, lt_div_iff₀ hden]; linarith
  rw [not_lt]
  calc (0.02 : ℝ) ≤ effFormula 1 (1/2) .CF .Cmin - 0.5403 := by linarith
  _ ≤ |effFormula 1 (1/2) .CF .Cmin - 0.5403| := le_abs_self _

/-- C5 amended: the model counterflow effectiveness agrees with the
spec's closed form to within 1e-9 for Cr in [0,1) and NTU in [0,10]
(indeed exactly), and its value at NTU = 1, Cr = 0.5 is within 1e-3 of
0.5647 — not of the spec's quoted 0.5403. -/
theorem claim_C5_amended (N C : ℝ) (m : Mixed) (hN0 : 0 ≤ N) (hN10 : N ≤ 10)
    (hC0 : 0 ≤ C) (hC1 : C < 1) :
    |effFormula N C .CF m - counterflowClosedForm N C| ≤ 1e-9 ∧
      |effFormula 1 (1/2) .CF .Cmin - 0.5647| < 1e-3 := by
  constructor
  · have heq : effFormula N C .CF m = counterflowClosedForm N C := by
      simp only [effFormula, counterflowClosedForm, if_neg (ne_of_lt hC1)]
    rw [heq, sub_self, abs_zero]; norm_num
  · have hx1 := exp_neg_half_lt
    have hx0 := exp_neg_half_gt
    have hden : (0:ℝ) < 1 - 1/2 * exp (-(1/2) : ℝ) := by nlinarith
    have h1 : (0.5637 : ℝ)
        < (1 - exp (-(1/2) : ℝ)) / (1 - 1/2 * exp (-(1/2) : ℝ)) := by
      rw [lt_div_iff₀ hden]; linarith
    have h2 : (1 - exp (-(1/2) : ℝ)) / (1 - 1/2 * exp (-(1/2) : ℝ))
        < 0.5657 := by
      rw [div_lt_iff₀ hden]; linarith
    rw [effCF_half_val, abs_lt]
    constructor <;> [linarith; linarith]

/-- Witness for the amended C5 at NTU = 1, Cr = 0.5. -/
theorem claim_C5_amended_witness :
    |effFormula 1 (1/2) .CF .Cmin - counterflowClosedForm 1 (1/2)| ≤ 1e-9 ∧
      |effFormula 1 (1/2) .CF .Cmin - 0.5647| < 1e-3 :=
  claim_C5_amended 1 (1/2) .Cmin (by norm_num) (by norm_num) (by norm_num)
    (by norm_num)

/-! Monotonicity of the modelled effectiveness in NTU, one lemma per
arrangement. -/

lemma effMono_CF {C N1 N2 : ℝ} (hC0 : 0 ≤ C) (hC1 : C ≤ 1)
    (hN0 : 0 ≤ N1) (hN : N1 ≤ N2) (m : Mixed) :
    effFormula N1 C .CF m ≤ effFormula N2 C .CF m := by
  by_cases h1 : C = 1
  · subst h1
    have hfe : ∀ N : ℝ, effFormula N 1 .CF m = N / (1 + N) := by
      intro N; simp [effFormula]
    have h1p : (0:ℝ) < 1 + N1 := by linarith
    have h2p : (0:ℝ) < 1 + N2 := by linarith
    rw [hfe, hfe, div_le_div_iff h1p h2p]
    nlinarith
  · have hClt : C < 1 := lt_of_le_of_ne hC1 h1
    simp only [effFormula, if_neg h1]
    have hx1pos : 0 < exp (-N1 * (1 - C)) := Real.exp_pos _
    have hx2pos : 0 < exp (-N2 * (1 - C)) := Real.exp_pos _
    have hx21 : exp (-N2 * (1 - C)) ≤ exp (-N1 * (1 - C)) :=
      Real.exp_le_exp.mpr (by nlinarith)
    have hx1le1 : exp (-N1 * (1 - C)) ≤ 1 :=
      exp_le_one_of_nonpos (by nlinarith)
    have hd1 : 0 < 1 - C * exp (-N1 * (1 - C)) := by nlinarith
    have hd2 : 0 < 1 - C * exp (-N2 * (1 - C)) := by nlinarith
    rw [div_le_div_iff hd1 hd2]
    nlinarith [mul_nonneg (sub_nonneg.2 hx21) (sub_nonneg.2 hC1)]

lemma effMono_PF {C N1 N2 : ℝ} (hC0 : 0 ≤ C) (hN : N1 ≤ N2) (m : Mixed) :
    effFormula N1 C .PF m ≤ effFormula N2 C .PF m := by
  simp only [effFormula]
  have hden : (0:ℝ) < 1 + C := by linarith
  have hx : exp (-N2 * (1 + C)) ≤ exp (-N1 * (1 + C)) :=
    Real.exp_le_exp.mpr (by nlinarith)
  apply div_le_div_of_nonneg_right ?_ hden.le
  linarith

lemma effMono_CrFunMix {C N1 N2 : ℝ} (hC0 : 0 ≤ C) (hN0 : 0 ≤ N1)
    (hN : N1 ≤ N2) (m : Mixed) :
    effFormula N1 C .CrFunMix m ≤ effFormula N2 C .CrFunMix m := by
  by_cases h0 : C = 0
  · subst h0
    have hfe : ∀ N : ℝ, effFormula N 0 .CrFunMix m = 1 - exp (-N) := by
      intro N; simp [effFormula]
    rw [hfe, hfe]
    have := Real.exp_le_exp.mpr (neg_le_neg hN)
    linarith
  · have hCpos : 0 < C := lt_of_le_of_ne hC0 (Ne.symm h0)
    simp only [effFormula, if_neg h0]
    have hN20 : 0 ≤ N2 := le_trans hN0 hN
    have hr22 : N1 ^ (0.22:ℝ) ≤ N2 ^ (0.22:ℝ) :=
      Real.rpow_le_rpow hN0 hN (by norm_num)
    have hr78 : N1 ^ (0.78:ℝ) ≤ N2 ^ (0.78:ℝ) :=
      Real.rpow_le_rpow hN0 hN (by norm_num)
    have h78nn : (0:ℝ) ≤ N2 ^ (0.78:ℝ) := Real.rpow_nonneg hN20 _
    have hE : exp (-C * N2 ^ (0.78:ℝ)) ≤ exp (-C * N1 ^ (0.78:ℝ)) :=
      Real.exp_le_exp.mpr (by nlinarith)
    have hE2n : exp (-C * N2 ^ (0.78:ℝ)) - 1 ≤ 0 := by
      have := exp_le_one_of_nonpos (x := -C * N2 ^ (0.78:ℝ)) (by nlinarith)
      linarith
    have h22nn : (0:ℝ) ≤ N1 ^ (0.22:ℝ) := Real.rpow_nonneg hN0 _
    have hq : N1 ^ (0.22:ℝ) / C ≤ N2 ^ (0.22:ℝ) / C :=
      div_le_div_of_nonneg_right hr22 hCpos.le
    have hqnn : 0 ≤ N1 ^ (0.22:ℝ) / C := div_nonneg h22nn hCpos.le
    have key : N2 ^ (0.22:ℝ) / C * (exp (-C * N2 ^ (0.78:ℝ)) - 1)
        ≤ N1 ^ (0.22:ℝ) / C * (exp (-C * N1 ^ (0.78:ℝ)) - 1) := by
      have step1 : N2 ^ (0.22:ℝ) / C * (exp (-C * N2 ^ (0.78:ℝ)) - 1)
          ≤ N1 ^ (0.22:ℝ) / C * (exp (-C * N2 ^ (0.78:ℝ)) - 1) :=
        mul_le_mul_of_nonpos_right hq hE2n
      have step2 : N1 ^ (0.22:ℝ) / C * (exp (-C * N2 ^ (0.78:ℝ)) - 1)
          ≤ N1 ^ (0.22:ℝ) / C * (exp (-C * N1 ^ (0.78:ℝ)) - 1) :=
        mul_le_mul_of_nonneg_left (by linarith) hqnn
      linarith
    have := Real.exp_le_exp.mpr key
    linarith

lemma effMono_CrFSMix_Cmin {C N1 N2 : ℝ} (hC0 : 0 ≤ C) (hN : N1 ≤ N2) :
    effFormula N1 C .CrFSMix .Cmin ≤ effFormula N2 C .CrFSMix .Cmin := by
  by_cases h0 : C = 0
  · subst h0
    have hfe : ∀ N : ℝ, effFormula N 0 .CrFSMix .Cmin = 1 - exp (-N) := by
      intro N; simp [effFormula]
    rw [hfe, hfe]
    have := Real.exp_le_exp.mpr (neg_le_neg hN)
    linarith
  · have hCpos : 0 < C := lt_of_le_of_ne hC0 (Ne.symm h0)
    simp only [effFormula, if_neg h0]
    have h1 : exp (-C * N2) ≤ exp (-C * N1) :=
      Real.exp_le_exp.mpr (by nlinarith)
    have h2 : -(1 - exp (-C * N2)) / C ≤ -(1 - exp (-C * N1)) / C :=
      div_le_div_of_nonneg_right (by linarith) hCpos.le
    have := Real.exp_le_exp.mpr h2
    linarith

lemma effMono_CrFSMix_Cmax {C N1 N2 : ℝ} (hC0 : 0 ≤ C) (hN : N1 ≤ N2) :
    effFormula N1 C .CrFSMix .Cmax ≤ effFormula N2 C .CrFSMix .Cmax := by
  by_cases h0 : C = 0
  · subst h0
    have hfe : ∀ N : ℝ, effFormula N 0 .CrFSMix .Cmax = 1 - exp (-N) := by
      intro N; simp [effFormula]
    rw [hfe, hfe]
    have := Real.exp_le_exp.mpr (neg_le_neg hN)
    linarith
  · have hCpos : 0 < C := lt_of_le_of_ne hC0 (Ne.symm h0)
    simp only [effFormula, if_neg h0]
    have h1 : exp (-N2) ≤ exp (-N1) := Real.exp_le_exp.mpr (by linarith)
    have h2 : exp (-C * (1 - exp (-N2))) ≤ exp (-C * (1 - exp (-N1))) :=
      Real.exp_le_exp.mpr (by nlinarith)
    exact div_le_div_of_nonneg_right (by linarith) hCpos.le

lemma effMono_TEMAE {C N1 N2 : ℝ} (hC0 : 0 ≤ C) (hN0 : 0 ≤ N1)
    (hN : N1 ≤ N2) (m : Mixed) :
    effFormula N1 C .TEMAE12 m ≤ effFormula N2 C .TEMAE12 m := by
  simp only [effFormula]
  have hs0 : 0 < sqrt (1 + C ^ 2) := Real.sqrt_pos.mpr (by positivity)
  have hsle : sqrt (1 + C ^ 2) ≤ 1 + C := by
    rw [show (1 + C : ℝ) = sqrt ((1 + C) ^ 2) from
      (Real.sqrt_sq (by linarith)).symm]
    exact Real.sqrt_le_sqrt (by nlinarith)
  have hu1pos : 0 < exp (-N1 * sqrt (1 + C ^ 2)) := Real.exp_pos _
  have hu2pos : 0 < exp (-N2 * sqrt (1 + C ^ 2)) := Real.exp_pos _
  have hu21 : exp (-N2 * sqrt (1 + C ^ 2)) ≤ exp (-N1 * sqrt (1 + C ^ 2)) :=
    Real.exp_le_exp.mpr (by nlinarith)
  have hu1le : exp (-N1 * sqrt (1 + C ^ 2)) ≤ 1 :=
    exp_le_one_of_nonpos (by nlinarith)
  have hd1 : 0 < (1 + C) * (1 - exp (-N1 * sqrt (1 + C ^ 2)))
      + sqrt (1 + C ^ 2) * (1 + exp (-N1 * sqrt (1 + C ^ 2))) := by nlinarith
  have hd2 : 0 < (1 + C) * (1 - exp (-N2 * sqrt (1 + C ^ 2)))
      + sqrt (1 + C ^ 2) * (1 + exp (-N2 * sqrt (1 + C ^ 2))) := by nlinarith
  rw [div_le_div_iff hd1 hd2]
  nlinarith [mul_nonneg (sub_nonneg.2 hu21) hs0.le]

/-- C4 counterexample: for the both-fluids-mixed crossflow arrangement
at Cr = 1 (a sweep value of the chart), effectiveness is not
non-decreasing in NTU: the model value at NTU = 3 exceeds the one at
NTU = 6, as the standard formula peaks near NTU = 3 and then declines. -/
theorem claim_C4_counterexample :
    ¬ effFormula 3 1 .CrFMix .Cmin ≤ effFormula 6 1 .CrFMix .Cmin := by
  rw [not_le]
  have e3pos : 0 < exp (-3 : ℝ) := Real.exp_pos _
  have e6pos : 0 < exp (-6 : ℝ) := Real.exp_pos _
  have e3lt1 : exp (-3 : ℝ) < 1 := by
    calc exp (-3 : ℝ) < exp 0 := Real.exp_lt_exp.mpr (by norm_num)
    _ = 1 := Real.exp_zero
  have e6lt1 : exp (-6 : ℝ) < 1 := by
    calc exp (-6 : ℝ) < exp 0 := Real.exp_lt_exp.mpr (by norm_num)
    _ = 1 := Real.exp_zero
  have hcube : exp (3:ℝ) = exp 1 * exp 1 * exp 1 := by
    rw [show (3:ℝ) = 1 + 1 + 1 by norm_num, Real.exp_add, Real.exp_add]
  have h20 : (20:ℝ) < exp 3 := by
    nlinarith [Real.exp_one_gt_d9, Real.exp_pos (1:ℝ)]
  have hmul : exp (-3:ℝ) * exp (3:ℝ) = 1 := by
    rw [← Real.exp_add]; norm_num
  have e3small : exp (-3:ℝ) < 0.05 := by nlinarith
  have hu3pos : (0:ℝ) < 1 - exp (-3:ℝ) := by linarith
  have hu6pos : (0:ℝ) < 1 - exp (-6:ℝ) := by linarith
  have hp3 : 1 / (1 - exp (-3:ℝ)) < 1 / 0.95 := by
    apply one_div_lt_one_div_of_lt <;> linarith
  have hp3pos : 0 < 1 / (1 - exp (-3:ℝ)) := by positivity
  have hp6 : 1 < 1 / (1 - exp (-6:ℝ)) := by
    rw [lt_div_iff₀ hu6pos]; linarith
  have hval : ∀ N : ℝ, N ≠ 0 → effFormula N 1 .CrFMix .Cmin
      = 1 / (1 / (1 - exp (-N)) + 1 / (1 - exp (-N)) - 1 / N) := by
    intro N hNne
    simp only [effFormula, if_neg (one_ne_zero (α := ℝ)), if_neg hNne]
    norm_num
  rw [hval 3 (by norm_num), hval 6 (by norm_num)]
  have hp3gt : 1 < 1 / (1 - exp (-3:ℝ)) := by
    rw [lt_div_iff₀ hu3pos]; linarith
  have hD3pos : 0 < 1 / (1 - exp (-3:ℝ)) + 1 / (1 - exp (-3:ℝ)) - 1 / 3 := by
    linarith
  have hD36 : 1 / (1 - exp (-3:ℝ)) + 1 / (1 - exp (-3:ℝ)) - 1 / 3
      < 1 / (1 - exp (-6:ℝ)) + 1 / (1 - exp (-6:ℝ)) - 1 / 6 := by
    linarith
  exact one_div_lt_one_div_of_lt hD3pos hD36

/-- C4 amended: for fixed capacity ratio in the unit interval,
effectiveness is monotonically non-decreasing in NTU for counterflow,
parallelflow, crossflow with one or both streams unmixed, and the 1-2
shell-and-tube arrangement, and for both-fluids-mixed crossflow when
Cr = 0; for both-fluids-mixed crossflow with positive Cr the standard
formula eventually decreases (see the counterexample at Cr = 1). -/
theorem claim_C4_amended (a : Arrangement) (m : Mixed) (C N1 N2 : ℝ)
    (hC0 : 0 ≤ C) (hC1 : C ≤ 1) (hN0 : 0 ≤ N1) (hN : N1 ≤ N2)
    (hmix : a = Arrangement.CrFMix → C = 0) :
    effFormula N1 C a m ≤ effFormula N2 C a m := by
  cases a with
  | CF => exact effMono_CF hC0 hC1 hN0 hN m
  | PF => exact effMono_PF hC0 hN m
  | CrFunMix => exact effMono_CrFunMix hC0 hN0 hN m
  | CrFSMix =>
      cases m with
      | Cmin => exact effMono_CrFSMix_Cmin hC0 hN
      | Cmax => exact effMono_CrFSMix_Cmax hC0 hN
  | CrFMix =>
      have h0 : C = 0 := hmix rfl
      subst h0
      have hfe : ∀ N : ℝ, effFormula N 0 .CrFMix m = 1 - exp (-N) := by
        intro N; simp [effFormula]
      rw [hfe, hfe]
      have := Real.exp_le_exp.mpr (neg_le_neg hN)
      linarith
  | TEMAE12 => exact effMono_TEMAE hC0 hN0 hN m

/-- Witness for the amended C4 at counterflow, Cr = 0.5, NTU 0 and 1. -/
theorem claim_C4_amended_witness :
    effFormula 0 (1/2) .CF .Cmin ≤ effFormula 1 (1/2) .CF .Cmin :=
  claim_C4_amended .CF .Cmin (1/2) 0 1 (by norm_num) (by norm_num)
    (by norm_num) (by norm_num) (fun h => by cases h)
